import Mathlib

/-!
Verification of the `sgx_panic_unwind` unwinding bridge (`gcc.rs`):
the exception envelope and its raise/cleanup lifecycle, the per-frame
personality routine `rust_eh_personality`, the `find_eh_action` resolver
wrapper, and the per-architecture register convention `UNWIND_DATA_REG`.

The foreign unwinder (`sgx_unwind`) and the DWARF metadata decoder
(`crate::dwarf::eh`) are external collaborators: the decoder is passed in
as an abstract function, and the effect of the foreign runtime's register
accessors (`_Unwind_SetGR`, `_Unwind_SetIP`) is recorded as an explicit
trace of writes, so the personality routine is embedded as a pure function
from its inputs to a reason code together with the writes it performed.
-/

namespace SgxPanicUnwind

/-- The action the DWARF metadata decoder resolves for one stack frame
(`EHAction` in `crate::dwarf::eh`): no action, run cleanup code at a
landing pad, run catch code at a landing pad, or terminate. -/
inductive EHAction where
  | None : EHAction
  | Cleanup : Nat → EHAction
  | Catch : Nat → EHAction
  | Terminate : EHAction
  deriving DecidableEq, Repr

/-- The foreign runtime's reason codes (`_Unwind_Reason_Code`), kept
abstract as a tag type: the personality routine only ever returns one of
these five. -/
inductive Unwind_Reason_Code where
  | URC_FATAL_PHASE1_ERROR : Unwind_Reason_Code
  | URC_FATAL_PHASE2_ERROR : Unwind_Reason_Code
  | URC_CONTINUE_UNWIND : Unwind_Reason_Code
  | URC_HANDLER_FOUND : Unwind_Reason_Code
  | URC_INSTALL_CONTEXT : Unwind_Reason_Code
  deriving DecidableEq, Repr

open Unwind_Reason_Code

/-- Modelled from the spec: the search-phase flag of the foreign
runtime's action bitmask (`_UA_SEARCH_PHASE` of `sgx_unwind`, whose
source is outside the shown files); the Itanium EH ABI value is bit 0. -/
def UA_SEARCH_PHASE : Nat := 1

/-- Modelled from the spec: the cleanup-phase flag of the foreign
runtime's action bitmask (`_UA_CLEANUP_PHASE` of `sgx_unwind`, whose
source is outside the shown files); the Itanium EH ABI value is bit 1. -/
def UA_CLEANUP_PHASE : Nat := 2

/-- One mutation of the frame context performed through the foreign
runtime's accessors: a general-register write (`_Unwind_SetGR`) or an
instruction-pointer write (`_Unwind_SetIP`). -/
inductive CtxWrite where
  | setGR : Int → Nat → CtxWrite
  | setIP : Nat → CtxWrite
  deriving DecidableEq, Repr

/-- The per-frame state the foreign runtime exposes through its context
accessors: `_Unwind_GetLanguageSpecificData`, `_Unwind_GetIPInfo` (the
address and the is-before-instruction out-parameter),
`_Unwind_GetRegionStart`, `_Unwind_GetTextRelBase`,
`_Unwind_GetDataRelBase`. -/
structure UnwindContext where
  lsda : Nat
  ip : Nat
  ip_before_instr : Int
  region_start : Nat
  text_rel_base : Nat
  data_rel_base : Nat
  deriving DecidableEq, Repr

/-- The `EHContext` record handed to the DWARF metadata decoder
(`crate::dwarf::eh::EHContext`): effective instruction pointer, function
start, and the text/data relocation bases (the lazy accessors of the
source, evaluated). -/
structure EHContext where
  ip : Nat
  func_start : Nat
  text_start : Nat
  data_start : Nat
  deriving DecidableEq, Repr

/-- A metadata decoder: `crate::dwarf::eh::find_eh_action`, the external
collaborator, abstracted as a function from the LSDA pointer and the
`EHContext` to either an action or a decode failure. -/
def Decoder : Type := Nat → EHContext → Except Unit EHAction

/-- Width of `usize` on the verified 64-bit target. -/
def USIZE_BITS : Nat := 64

/-- Wrapping `usize` subtraction of one, as `ip - 1` computes in the
source (release-mode two's-complement wraparound at zero). -/
def usize_sub_one (ip : Nat) : Nat := (ip + (2 ^ USIZE_BITS - 1)) % 2 ^ USIZE_BITS

/-- `find_eh_action` of `gcc.rs`: reads the LSDA pointer and the
instruction-pointer information from the frame context, builds the
decoder's `EHContext` — subtracting one from the instruction pointer
unless the runtime reports it already precedes the call instruction —
and delegates to the metadata decoder. -/
def find_eh_action (decode : Decoder) (context : UnwindContext) : Except Unit EHAction :=
  let lsda := context.lsda
  let ip_before_instr := context.ip_before_instr
  let ip := context.ip
  let eh_context : EHContext :=
    { ip := if ip_before_instr ≠ 0 then ip else usize_sub_one ip
      func_start := context.region_start
      text_start := context.text_rel_base
      data_start := context.data_rel_base }
  decode lsda eh_context

/-- The supported target architectures of the register table. -/
inductive Arch where
  | x86 : Arch
  | x86_64 : Arch
  deriving DecidableEq, Repr

/-- `UNWIND_DATA_REG`: the per-architecture DWARF register-number pair
used to deliver the exception pointer and the selector into a landing
pad; `(0, 2)` (EAX, EDX) on x86 and `(0, 1)` (RAX, RDX) on x86_64. -/
def UNWIND_DATA_REG : Arch → Int × Int
  | .x86 => (0, 2)
  | .x86_64 => (0, 1)

/-- `rust_eh_personality` of `gcc.rs`, embedded as a pure function: given
the target architecture (fixing `UNWIND_DATA_REG`), the metadata decoder,
and the five arguments of the C entry point, it returns the reason code
together with the trace of frame-context writes it performed. -/
def rust_eh_personality (arch : Arch) (decode : Decoder)
    (version : Int) (actions : Nat) (exception_class : Nat)
    (exception_object : Nat) (context : UnwindContext) :
    Unwind_Reason_Code × List CtxWrite :=
  if version ≠ 1 then
    (URC_FATAL_PHASE1_ERROR, [])
  else
    match find_eh_action decode context with
    | .error _ => (URC_FATAL_PHASE1_ERROR, [])
    | .ok eh_action =>
      if actions &&& UA_SEARCH_PHASE ≠ 0 then
        match eh_action with
        | .None | .Cleanup _ => (URC_CONTINUE_UNWIND, [])
        | .Catch _ => (URC_HANDLER_FOUND, [])
        | .Terminate => (URC_FATAL_PHASE1_ERROR, [])
      else
        match eh_action with
        | .None => (URC_CONTINUE_UNWIND, [])
        | .Cleanup lpad | .Catch lpad =>
          (URC_INSTALL_CONTEXT,
            [CtxWrite.setGR (UNWIND_DATA_REG arch).1 exception_object,
             CtxWrite.setGR (UNWIND_DATA_REG arch).2 0,
             CtxWrite.setIP lpad])
        | .Terminate => (URC_FATAL_PHASE2_ERROR, [])

/-- `rust_exception_class` of `gcc.rs`: the fixed 8-byte class tag,
4-byte vendor id `M O Z \0` followed by 4-byte language id `R U S T`. -/
def rust_exception_class : Nat := 0x4d4f5a0052555354

/-- Size of the foreign runtime's private bookkeeping block
(`unwinder_private_data_size` words), kept abstract. -/
def unwinder_private_data_size : Nat := 2

/-- The foreign runtime's exception header (`_Unwind_Exception`): the
8-byte class tag and the private block (the cleanup-callback pointer is
the fixed `exception_cleanup` of the source and carries no state). -/
structure Unwind_Exception where
  exception_class : Nat
  private_data : List Nat
  deriving DecidableEq, Repr

/-- The envelope `Exception` of `gcc.rs`: the foreign runtime's header
plus the at-most-one cause payload. -/
structure Exception (α : Type) where
  _uwe : Unwind_Exception
  cause : Option α

/-- The envelope `panic` allocates before handing it to
`_Unwind_RaiseException`: header with the Rust class tag and zeroed
private block, cause slot holding the payload. -/
def mkException {α : Type} (data : α) : Exception α :=
  { _uwe :=
      { exception_class := rust_exception_class
        private_data := List.replicate unwinder_private_data_size 0 }
    cause := some data }

/-- A call the lifecycle functions issue to the foreign runtime. -/
inductive ForeignCall where
  | deleteException : ForeignCall
  deriving DecidableEq, Repr

/-- `cleanup` of `gcc.rs`: takes the cause out of the envelope's slot
(leaving it empty), instructs the foreign runtime to delete the exception
header, and returns the taken payload (`None` models the `unwrap` panic
on an already-emptied slot). -/
def cleanup {α : Type} (e : Exception α) : Option α × Exception α × List ForeignCall :=
  let cause := e.cause
  let emptied : Exception α := { e with cause := none }
  (cause, emptied, [ForeignCall.deleteException])

/-- A concrete frame context used to instantiate universally quantified
theorems at a closed input. -/
def ctx0 : UnwindContext :=
  { lsda := 16, ip := 100, ip_before_instr := 0
    region_start := 64, text_rel_base := 8, data_rel_base := 12 }

lemma usize_sub_one_eq (ip : Nat) (h1 : 1 ≤ ip) (h2 : ip < 2 ^ USIZE_BITS) :
    usize_sub_one ip = ip - 1 := by
  have hN : 1 ≤ 2 ^ USIZE_BITS := Nat.one_le_two_pow
  unfold usize_sub_one
  have hsplit : ip + (2 ^ USIZE_BITS - 1) = (ip - 1) + 1 * 2 ^ USIZE_BITS := by omega
  rw [hsplit, Nat.add_mul_mod_self_right]
  exact Nat.mod_eq_of_lt (by omega)

/-- C1: in a cleanup-phase invocation (version 1, search-phase bit clear,
cleanup-phase bit set) with the action resolved, a `Cleanup lpad` or
`Catch lpad` action makes the personality routine write the
exception-object pointer into the primary register of the pair, zero into
the secondary register, set the frame's instruction pointer to `lpad`,
and return `URC_INSTALL_CONTEXT`; `None` returns `URC_CONTINUE_UNWIND`
and `Terminate` returns `URC_FATAL_PHASE2_ERROR`. -/
theorem cleanup_phase_dispatch (arch : Arch) (decode : Decoder)
    (actions exception_class exception_object : Nat)
    (context : UnwindContext) (a : EHAction)
    (hres : find_eh_action decode context = .ok a)
    (hsearch : actions &&& UA_SEARCH_PHASE = 0)
    (hcleanup : actions &&& UA_CLEANUP_PHASE ≠ 0) :
    rust_eh_personality arch decode 1 actions exception_class exception_object context =
      match a with
      | .None => (URC_CONTINUE_UNWIND, [])
      | .Cleanup lpad | .Catch lpad =>
        (URC_INSTALL_CONTEXT,
          [CtxWrite.setGR (UNWIND_DATA_REG arch).1 exception_object,
           CtxWrite.setGR (UNWIND_DATA_REG arch).2 0,
           CtxWrite.setIP lpad])
      | .Terminate => (URC_FATAL_PHASE2_ERROR, []) := by
  cases a <;> simp [rust_eh_personality, hres, hsearch]

/-- C1 witness: a concrete cleanup-phase invocation resolving to
`Catch 42` installs the landing-pad context with the x86_64 register
pair. -/
theorem cleanup_phase_dispatch_witness :
    rust_eh_personality .x86_64 (fun _ _ => .ok (.Catch 42)) 1 2 7 99 ctx0 =
      (URC_INSTALL_CONTEXT,
        [CtxWrite.setGR 0 99, CtxWrite.setGR 1 0, CtxWrite.setIP 42]) :=
  cleanup_phase_dispatch .x86_64 (fun _ _ => .ok (.Catch 42)) 2 7 99 ctx0
    (.Catch 42) rfl (by decide) (by decide)

/-- C2: in a search-phase invocation (version 1, search-phase bit set)
with the action resolved, the personality routine performs no writes and
returns `URC_CONTINUE_UNWIND` for `None` or `Cleanup`,
`URC_HANDLER_FOUND` for `Catch`, and `URC_FATAL_PHASE1_ERROR` for
`Terminate`. -/
theorem search_phase_dispatch (arch : Arch) (decode : Decoder)
    (actions exception_class exception_object : Nat)
    (context : UnwindContext) (a : EHAction)
    (hres : find_eh_action decode context = .ok a)
    (hsearch : actions &&& UA_SEARCH_PHASE ≠ 0) :
    rust_eh_personality arch decode 1 actions exception_class exception_object context =
      match a with
      | .None | .Cleanup _ => (URC_CONTINUE_UNWIND, [])
      | .Catch _ => (URC_HANDLER_FOUND, [])
      | .Terminate => (URC_FATAL_PHASE1_ERROR, []) := by
  cases a <;> simp [rust_eh_personality, hres, hsearch]

/-- C2 witness: a concrete search-phase invocation resolving to
`Catch 42` reports `URC_HANDLER_FOUND` with no writes. -/
theorem search_phase_dispatch_witness :
    rust_eh_personality .x86_64 (fun _ _ => .ok (.Catch 42)) 1 1 7 99 ctx0 =
      (URC_HANDLER_FOUND, []) :=
  search_phase_dispatch .x86_64 (fun _ _ => .ok (.Catch 42)) 1 7 99 ctx0
    (.Catch 42) rfl (by decide)

/-- C3 counterexample: at a concrete cleanup-phase invocation (actions
bitmask 2) whose resolver fails, the personality routine returns
`URC_FATAL_PHASE1_ERROR`, while a resolved `Terminate` action in the same
cleanup-phase invocation returns `URC_FATAL_PHASE2_ERROR` — the two
codes differ, so a resolver failure is not surfaced as Terminate's
cleanup-phase code. -/
theorem resolver_failure_not_phase2 :
    rust_eh_personality .x86_64 (fun _ _ => .error ()) 1 2 7 99 ctx0 =
      (URC_FATAL_PHASE1_ERROR, [])
    ∧ rust_eh_personality .x86_64 (fun _ _ => .ok .Terminate) 1 2 7 99 ctx0 =
      (URC_FATAL_PHASE2_ERROR, [])
    ∧ URC_FATAL_PHASE1_ERROR ≠ URC_FATAL_PHASE2_ERROR := by
  refine ⟨rfl, rfl, by decide⟩

/-- C3 amended: whenever the resolver fails to produce an action
(version 1), the personality routine returns `URC_FATAL_PHASE1_ERROR`
with no writes, in both phases alike; this coincides with the handling
of a resolved `Terminate` only in the search phase. -/
theorem resolver_failure_dispatch (arch : Arch) (decode : Decoder)
    (actions exception_class exception_object : Nat)
    (context : UnwindContext)
    (hfail : find_eh_action decode context = .error ()) :
    rust_eh_personality arch decode 1 actions exception_class exception_object context =
      (URC_FATAL_PHASE1_ERROR, []) := by
  simp [rust_eh_personality, hfail]

/-- C3 amended witness: a concrete search-phase invocation with a failing
resolver returns the phase-1 fatal code. -/
theorem resolver_failure_dispatch_witness :
    rust_eh_personality .x86_64 (fun _ _ => .error ()) 1 1 7 99 ctx0 =
      (URC_FATAL_PHASE1_ERROR, []) :=
  resolver_failure_dispatch .x86_64 (fun _ _ => .error ()) 1 7 99 ctx0 rfl

/-- C4: the resolver queries the decoder with the frame's LSDA pointer,
function start, and relocation bases passed through unchanged, and with
the reported instruction pointer unchanged when the is-before-instruction
flag is nonzero, or minus one when the flag is zero (and the pointer does
not underflow the `usize` range). -/
theorem resolver_ip_adjustment (decode : Decoder) (context : UnwindContext) :
    (context.ip_before_instr ≠ 0 →
      find_eh_action decode context =
        decode context.lsda
          { ip := context.ip, func_start := context.region_start
            text_start := context.text_rel_base, data_start := context.data_rel_base })
    ∧ (context.ip_before_instr = 0 → 1 ≤ context.ip → context.ip < 2 ^ USIZE_BITS →
      find_eh_action decode context =
        decode context.lsda
          { ip := context.ip - 1, func_start := context.region_start
            text_start := context.text_rel_base, data_start := context.data_rel_base }) := by
  constructor
  · intro h
    simp [find_eh_action, h]
  · intro h h1 h2
    simp [find_eh_action, h, usize_sub_one_eq context.ip h1 h2]

/-- C4 witness: on a concrete context with the flag zero and reported
instruction pointer 100, the decoder is queried at 99; with the flag
nonzero it is queried at 100. -/
theorem resolver_ip_adjustment_witness :
    (find_eh_action (fun _ c => .ok (.Cleanup c.ip)) ctx0 = .ok (.Cleanup 99))
    ∧ (find_eh_action (fun _ c => .ok (.Cleanup c.ip)) { ctx0 with ip_before_instr := 1 } =
        .ok (.Cleanup 100)) := by
  constructor
  · have h := (resolver_ip_adjustment (fun _ c => .ok (.Cleanup c.ip)) ctx0).2
      (by decide) (by decide) (by decide)
    simpa using h
  · have h := (resolver_ip_adjustment (fun _ c => .ok (.Cleanup c.ip))
      { ctx0 with ip_before_instr := 1 }).1 (by decide)
    simpa using h

/-- C5: for every payload `p`, the envelope built at raise time holds
`p` as the sole occupant of its cause slot; `cleanup` empties the slot,
issues exactly one delete-exception call to the foreign runtime, and
returns exactly `p`; a second extraction on the emptied envelope finds
the slot empty instead of stale data. -/
theorem payload_round_trip {α : Type} (p : α) :
    (mkException p).cause = some p
    ∧ cleanup (mkException p) =
        (some p, { mkException p with cause := none }, [ForeignCall.deleteException])
    ∧ (cleanup (cleanup (mkException p)).2.1).1 = none :=
  ⟨rfl, rfl, rfl⟩

/-- C6: the register pair is `(0, 2)` (EAX, EDX) on x86 and `(0, 1)`
(RAX, RDX) on x86_64, and on every install-context path the two
registers the personality routine writes are exactly the pair's two
identifiers for the invocation's architecture. -/
theorem register_table_fidelity :
    UNWIND_DATA_REG .x86 = (0, 2)
    ∧ UNWIND_DATA_REG .x86_64 = (0, 1)
    ∧ ∀ (arch : Arch) (decode : Decoder)
        (actions exception_class exception_object : Nat)
        (context : UnwindContext) (lpad : Nat) (a : EHAction),
        find_eh_action decode context = .ok a →
        (a = .Cleanup lpad ∨ a = .Catch lpad) →
        actions &&& UA_SEARCH_PHASE = 0 →
        rust_eh_personality arch decode 1 actions exception_class exception_object context =
          (URC_INSTALL_CONTEXT,
            [CtxWrite.setGR (UNWIND_DATA_REG arch).1 exception_object,
             CtxWrite.setGR (UNWIND_DATA_REG arch).2 0,
             CtxWrite.setIP lpad]) := by
  refine ⟨rfl, rfl, ?_⟩
  intro arch decode actions exception_class exception_object context lpad a hres ha hsearch
  rcases ha with h | h <;> subst h <;> simp [rust_eh_personality, hres, hsearch]

/-- C6 witness: a concrete cleanup-phase install on x86 writes registers
0 (EAX) and 2 (EDX). -/
theorem register_table_fidelity_witness :
    rust_eh_personality .x86 (fun _ _ => .ok (.Cleanup 42)) 1 0 7 99 ctx0 =
      (URC_INSTALL_CONTEXT,
        [CtxWrite.setGR 0 99, CtxWrite.setGR 2 0, CtxWrite.setIP 42]) :=
  register_table_fidelity.2.2 .x86 (fun _ _ => .ok (.Cleanup 42)) 0 7 99 ctx0
    42 (.Cleanup 42) rfl (Or.inl rfl) (by decide)

/-- C7: whenever the version argument differs from 1, the personality
routine returns `URC_FATAL_PHASE1_ERROR` with no writes, for every
phase bitmask, exception class, decoder, and frame context — so no
action resolution or register mutation takes place. -/
theorem version_mismatch_fatal (arch : Arch) (decode : Decoder)
    (version : Int) (actions exception_class exception_object : Nat)
    (context : UnwindContext) (hv : version ≠ 1) :
    rust_eh_personality arch decode version actions exception_class exception_object context =
      (URC_FATAL_PHASE1_ERROR, []) := by
  simp [rust_eh_personality, hv]

/-- C7 witness: a concrete version-3 invocation returns the phase-1
fatal code with no writes. -/
theorem version_mismatch_fatal_witness :
    rust_eh_personality .x86_64 (fun _ _ => .ok (.Catch 42)) 3 1 7 99 ctx0 =
      (URC_FATAL_PHASE1_ERROR, []) :=
  version_mismatch_fatal .x86_64 (fun _ _ => .ok (.Catch 42)) 3 1 7 99 ctx0 (by decide)

/-- C8: no search-phase invocation performs any register or
instruction-pointer write: whenever the search-phase bit is set, the
personality routine's write trace is empty for every version, decoder
outcome, and frame context. -/
theorem search_phase_writes_nothing (arch : Arch) (decode : Decoder)
    (version : Int) (actions exception_class exception_object : Nat)
    (context : UnwindContext)
    (hsearch : actions &&& UA_SEARCH_PHASE ≠ 0) :
    (rust_eh_personality arch decode version actions exception_class
      exception_object context).2 = [] := by
  by_cases hv : version = 1
  · subst hv
    cases hres : find_eh_action decode context with
    | error e => simp [rust_eh_personality, hres]
    | ok a => cases a <;> simp [rust_eh_personality, hres, hsearch]
  · simp [rust_eh_personality, hv]

/-- C8 witness: a concrete search-phase invocation resolving to
`Cleanup 42` performs no writes. -/
theorem search_phase_writes_nothing_witness :
    (rust_eh_personality .x86_64 (fun _ _ => .ok (.Cleanup 42)) 1 1 7 99 ctx0).2 = [] :=
  search_phase_writes_nothing .x86_64 (fun _ _ => .ok (.Cleanup 42)) 1 1 7 99 ctx0
    (by decide)

/-- C9: the raise path embeds the fixed 8-byte class tag
`0x4d4f5a0052555354` (vendor `MOZ\0`, language `RUST`) in every
envelope's header, and the personality routine's result — reason code
and write trace alike — does not depend on the incoming exception-class
argument. -/
theorem class_tag_fixed_and_ignored :
    rust_exception_class = 0x4d4f5a0052555354
    ∧ (∀ (α : Type) (p : α), (mkException p)._uwe.exception_class = 0x4d4f5a0052555354)
    ∧ ∀ (arch : Arch) (decode : Decoder) (version : Int)
        (actions ec1 ec2 exception_object : Nat) (context : UnwindContext),
        rust_eh_personality arch decode version actions ec1 exception_object context =
        rust_eh_personality arch decode version actions ec2 exception_object context :=
  ⟨rfl, fun _ _ => rfl, fun _ _ _ _ _ _ _ _ => rfl⟩

/-- C10: the personality routine dispatches on the absence of the
search-phase bit alone: any actions bitmask with that bit clear —
including bitmasks with no cleanup-phase bit set — is handled by the
cleanup-phase rules, installing the landing-pad context for `Cleanup`
and `Catch` actions. -/
theorem search_bit_clear_uses_cleanup_rules (arch : Arch) (decode : Decoder)
    (actions exception_class exception_object : Nat)
    (context : UnwindContext) (a : EHAction)
    (hres : find_eh_action decode context = .ok a)
    (hsearch : actions &&& UA_SEARCH_PHASE = 0) :
    rust_eh_personality arch decode 1 actions exception_class exception_object context =
      match a with
      | .None => (URC_CONTINUE_UNWIND, [])
      | .Cleanup lpad | .Catch lpad =>
        (URC_INSTALL_CONTEXT,
          [CtxWrite.setGR (UNWIND_DATA_REG arch).1 exception_object,
           CtxWrite.setGR (UNWIND_DATA_REG arch).2 0,
           CtxWrite.setIP lpad])
      | .Terminate => (URC_FATAL_PHASE2_ERROR, []) := by
  cases a <;> simp [rust_eh_personality, hres, hsearch]

/-- C10 witness: with the all-zero actions bitmask — search bit clear
and cleanup bit clear — a resolved `Catch 42` still installs the
landing-pad context. -/
theorem search_bit_clear_uses_cleanup_rules_witness :
    rust_eh_personality .x86_64 (fun _ _ => .ok (.Catch 42)) 1 0 7 99 ctx0 =
      (URC_INSTALL_CONTEXT,
        [CtxWrite.setGR 0 99, CtxWrite.setGR 1 0, CtxWrite.setIP 42]) :=
  search_bit_clear_uses_cleanup_rules .x86_64 (fun _ _ => .ok (.Catch 42)) 0 7 99 ctx0
    (.Catch 42) rfl (by decide)

end SgxPanicUnwind
